import Mathlib

/-!
Verification of the robocad parametric feature-geometry engine.

The development shallowly embeds the pure geometric computations of the
repository over the rationals:

* `robocad/core/geometry.py` — `lerp`, `lerp_point`, `frustum_polygon_at_z`
  (the spec's `profileAt`), and the inward-offset routine (`innerOffset`,
  which the source leaves as an empty stub and is therefore modelled from
  the spec's own description);
* `robocad/core/parameters.py` — the hardware-spec catalog
  (`ServoSpec`, `SG90_SPEC`, `HCSR04Spec`, `HCSR04_PCB_SPEC`);
* `robocad/parts/servo.py` — the pure pre-kernel computations of
  `ServoMountPlate.build` and `ServoFrustumMount.build`: plate sizing,
  screw-hole placement, top-footprint sizing, the two feasibility
  assertions, and the interpolation helpers.

Python floats are embedded as `ℚ`; exceptions become `Except` values, with
one constructor per distinct raise site of the source.
-/

namespace Robocad

/-- 2D point, `Point2D = Tuple[float, float]` in `geometry.py`. -/
abbrev Point2D := ℚ × ℚ

/-- `lerp(a, b, t) = a + (b - a) * t` from `geometry.py`. -/
def lerp (a b t : ℚ) : ℚ := a + (b - a) * t

/-- `lerp_point(p0, p1, t)` from `geometry.py`: componentwise `lerp`. -/
def lerp_point (p0 p1 : Point2D) (t : ℚ) : Point2D :=
  (lerp p0.1 p1.1 t, lerp p0.2 p1.2 t)

/-- Errors raised by `frustum_polygon_at_z`; the source raises Python
`ValueError` with one of two distinct messages. -/
inductive GeomError where
  | valueError (msg : String)
  deriving DecidableEq, Repr

/-- The error raised for `height == 0`; the spec's §7 taxonomy calls this
condition a `DomainError`. -/
def DomainError : GeomError := .valueError "height must be non-zero"

/-- The error raised for mismatched vertex counts; the spec's §7 taxonomy
calls this condition a `ConfigError`. -/
def ConfigError : GeomError :=
  .valueError "base_polygon and top_polygon must have the same number of vertices"

/-- `frustum_polygon_at_z(z, height, base_polygon, top_polygon)` from
`geometry.py`: raises for zero height, then for mismatched vertex counts,
otherwise interpolates every corresponding vertex pair at `t = z / height`. -/
def frustum_polygon_at_z (z height : ℚ) (base_polygon top_polygon : List Point2D) :
    Except GeomError (List Point2D) :=
  if height = 0 then .error DomainError
  else if base_polygon.length ≠ top_polygon.length then .error ConfigError
  else .ok (List.zipWith (fun pb pt => lerp_point pb pt (z / height)) base_polygon top_polygon)

/-- `ServoSpec` from `parameters.py`. -/
structure ServoSpec where
  body_width : ℚ
  body_length : ℚ
  body_height : ℚ
  flange_thickness : ℚ
  flange_overhang : ℚ
  screw_spacing_x : ℚ
  screw_diameter : ℚ
  deriving DecidableEq, Repr

/-- `HCSR04Spec` from `parameters.py`. -/
structure HCSR04Spec where
  board_width : ℚ
  board_height : ℚ
  board_thickness : ℚ
  mount_hole_spacing_x : ℚ
  mount_hole_spacing_y : ℚ
  mount_hole_diameter : ℚ
  windows_separation : ℚ
  window_diameter : ℚ
  deriving DecidableEq, Repr

/-- `SG90_SPEC` constant from `parameters.py`. -/
def SG90_SPEC : ServoSpec where
  body_width := 12.2
  body_length := 23.5
  body_height := 22.5
  flange_thickness := 2.0
  flange_overhang := 2.0
  screw_spacing_x := 27.0
  screw_diameter := 2.0

/-- `HCSR04_PCB_SPEC` constant from `parameters.py`. -/
def HCSR04_PCB_SPEC : HCSR04Spec where
  board_width := 45.0
  board_height := 30.0
  board_thickness := 2.0
  mount_hole_spacing_x := 40.0
  mount_hole_spacing_y := 16.0
  mount_hole_diameter := 2.5
  windows_separation := 25.0
  window_diameter := 11.0

/-- The kernel's `Rectangle(length, width)` sketch is an axis-aligned
rectangle centered at the origin; its four corner vertices. -/
def rect_centered (length width : ℚ) : List Point2D :=
  [(length / 2, width / 2), (-(length / 2), width / 2),
   (-(length / 2), -(width / 2)), (length / 2, -(width / 2))]

/-- Centroid of a polygon given by its vertices (average of the vertices). -/
def centroid (pts : List Point2D) : Point2D :=
  ((pts.map Prod.fst).sum / pts.length, (pts.map Prod.snd).sum / pts.length)

/-- The symmetric screw-hole pair
`Locations((s.screw_spacing_x / 2, 0), (-s.screw_spacing_x / 2, 0))`, as
placed by both `ServoMountPlate.build` (step C) and
`ServoFrustumMount.build` (step 6) in `servo.py`. -/
def screw_hole_locations (s : ServoSpec) : List Point2D :=
  [(s.screw_spacing_x / 2, 0), (-(s.screw_spacing_x / 2), 0)]

/-- Mirror a point across the centerline x = 0. -/
def mirrorX (p : Point2D) : Point2D := (-p.1, p.2)

/-- `ServoMountPlate` from `servo.py`, with its dataclass defaults. -/
structure ServoMountPlate where
  spec : ServoSpec := SG90_SPEC
  thickness : ℚ := 3.0
  clearance : ℚ := 0.3
  margin_y : ℚ := 3.0
  margin_x : ℚ := 4.0
  deriving DecidableEq, Repr

namespace ServoMountPlate

/-- `plate_width = s.body_width + self.margin_y * 2` from
`ServoMountPlate.build`. -/
def plate_width (m : ServoMountPlate) : ℚ := m.spec.body_width + m.margin_y * 2

/-- `plate_length = s.body_length + self.margin_x * 2` from
`ServoMountPlate.build`. -/
def plate_length (m : ServoMountPlate) : ℚ := m.spec.body_length + m.margin_x * 2

/-- The base-plate outline sketched by `ServoMountPlate.build` (step A):
`Rectangle(plate_length, plate_width)`, centered at the origin.  This is the
spec's `basePlateProfile` (the fillet only rounds the corners and does not
change the bounding dimensions). -/
def basePlateProfile (m : ServoMountPlate) : List Point2D :=
  rect_centered m.plate_length m.plate_width

end ServoMountPlate

/-- `ServoFrustumMount` from `servo.py`, with its dataclass defaults
(`debug_view` is irrelevant to the pre-kernel geometry and omitted). -/
structure ServoFrustumMount where
  spec : ServoSpec := SG90_SPEC
  base_length : ℚ := 42.0
  base_width : ℚ := 32.0
  height : ℚ := 28.8
  wall_thickness : ℚ := 2.5
  deck_thickness : ℚ := 3.0
  bottom_thickness : ℚ := 3.0
  corner_radius : ℚ := 3.0
  base_mount_hole_inset : ℚ := 4.0
  mount_hole_diameter : ℚ := 3.0
  wire_slot_width : ℚ := 8.0
  wire_slot_height : ℚ := 8.0
  deriving DecidableEq, Repr

namespace ServoFrustumMount

/-- `top_len = s.body_length + (2 * self.wall_thickness) + 4.0` from
`ServoFrustumMount.build`. -/
def top_len (m : ServoFrustumMount) : ℚ :=
  m.spec.body_length + 2 * m.wall_thickness + 4.0

/-- `top_wid = s.body_width + (2 * self.wall_thickness) + 2.0` from
`ServoFrustumMount.build`. -/
def top_wid (m : ServoFrustumMount) : ℚ :=
  m.spec.body_width + 2 * m.wall_thickness + 2.0

/-- `ServoFrustumMount._lerp(bottom_value, top_value, z)` from `servo.py`:
`t = z / self.height; return bottom_value - (bottom_value - top_value) * t`. -/
def _lerp (m : ServoFrustumMount) (bottom_value top_value z : ℚ) : ℚ :=
  bottom_value - (bottom_value - top_value) * (z / m.height)

/-- `ServoFrustumMount._outer_dims_at_z` from `servo.py`. -/
def _outer_dims_at_z (m : ServoFrustumMount) (z tl tw : ℚ) : ℚ × ℚ :=
  (m._lerp m.base_length tl z, m._lerp m.base_width tw z)

/-- `ServoFrustumMount._inner_dims_at_z` from `servo.py`: outer dimensions
shrunk by `2 * wall_thickness`. -/
def _inner_dims_at_z (m : ServoFrustumMount) (z tl tw : ℚ) : ℚ × ℚ :=
  ((m._outer_dims_at_z z tl tw).1 - 2 * m.wall_thickness,
   (m._outer_dims_at_z z tl tw).2 - 2 * m.wall_thickness)

/-- The ways the pre-kernel part of `ServoFrustumMount.build` can fail, plus
the spec §7's `FeasibilityError` (an accumulated violation list), which the
source never constructs. -/
inductive BuildError where
  | assertBaseLength
  | assertBaseWidth
  | feasibility (violations : List String)
  deriving DecidableEq, Repr

/-- Whether a build error is the spec's accumulated `FeasibilityError`. -/
def BuildError.isFeasibility : BuildError → Bool
  | .feasibility _ => true
  | _ => false

/-- The pre-kernel validation of `ServoFrustumMount.build`: the statements
`assert self.base_length >= top_len` then `assert self.base_width >= top_wid`,
executed in order before any sketch, loft or boolean kernel operation. -/
def buildChecks (m : ServoFrustumMount) : Except BuildError Unit :=
  if m.base_length ≥ m.top_len then
    if m.base_width ≥ m.top_wid then .ok () else .error .assertBaseWidth
  else .error .assertBaseLength

/-- `ServoFrustumMount.build` reaches its first kernel operation (the
`BuildSketch`/`loft` calls) exactly when both assertions pass. -/
def reachesKernel (m : ServoFrustumMount) : Bool := (buildChecks m).toBool

/-- Modelled from the spec: §4.4's batch Feasibility Validator, restricted to
the rule the cited code actually enforces pre-kernel — base footprint ≥ top
footprint in both axes — accumulating every violated constraint in order
instead of stopping at the first.  No such accumulating validator exists in
the source. -/
def specValidator (m : ServoFrustumMount) : List String :=
  (if m.base_length ≥ m.top_len then [] else ["base length smaller than top length"]) ++
  (if m.base_width ≥ m.top_wid then [] else ["base width smaller than top width"])

end ServoFrustumMount

/-- The frustum mount of the wall-thickness scenario: every parameter at its
default except `wall_thickness = 100` against the default 42×32 base. -/
def wall100Mount : ServoFrustumMount := { wall_thickness := 100 }

/-- An axis-aligned rectangle profile centered at the origin, the only
profile family the system offsets. -/
structure Rect where
  length : ℚ
  width : ℚ
  deriving DecidableEq, Repr

/-- Area of a rectangle profile. -/
def Rect.area (r : Rect) : ℚ := r.length * r.width

/-- Strict containment of concentric axis-aligned rectangles: strictly
smaller extent in both axes. -/
def Rect.strictlyInside (inner outer : Rect) : Prop :=
  inner.length < outer.length ∧ inner.width < outer.width

/-- The spec §7 `FeasibilityError` raised by `innerOffset`. -/
inductive FeasibilityError where
  | feasibilityError (msg : String)
  deriving DecidableEq, Repr

/-- Modelled from the spec: `innerOffset(profile, wallThickness)` of §4.2.
The source's `offset_polygon_inward_convex` (and `frustum_inner_polygon_at_z`
and `_line_intersection`) in `geometry.py` are empty stubs, a gap §9 of the
spec acknowledges; per §4.2, for axis-aligned rectangles the inward offset
shrinks each half-dimension by `wallThickness` and must fail with
`FeasibilityError` when a resulting half-dimension would become ≤ 0. -/
def innerOffset (r : Rect) (wallThickness : ℚ) : Except FeasibilityError Rect :=
  if 0 < r.length / 2 - wallThickness ∧ 0 < r.width / 2 - wallThickness then
    .ok ⟨r.length - 2 * wallThickness, r.width - 2 * wallThickness⟩
  else .error (.feasibilityError "inner profile degenerates or inverts")

/-- One monotone step of a coordinate between its base value a (at z = 0)
and its top value b (at z = height): x is the coordinate at the earlier
height, y at the later one, and both stay between a and b, ordered in the
direction of the taper. -/
def monoStep (a b x y : ℚ) : Prop :=
  (a ≤ b → a ≤ x ∧ x ≤ y ∧ y ≤ b) ∧ (b ≤ a → b ≤ y ∧ y ≤ x ∧ x ≤ a)

/-! ## Helper lemmas -/

lemma lerp_monoStep (a b t₁ t₂ : ℚ) (h0 : 0 ≤ t₁) (h12 : t₁ ≤ t₂) (h1 : t₂ ≤ 1) :
    monoStep a b (lerp a b t₁) (lerp a b t₂) := by
  constructor <;> intro hab <;> refine ⟨?_, ?_, ?_⟩ <;> simp only [lerp] <;> nlinarith

lemma lerp_zero (a b : ℚ) : lerp a b 0 = a := by
  simp [lerp]

lemma lerp_one (a b : ℚ) : lerp a b 1 = b := by
  simp only [lerp]
  ring

lemma frustum_ok (z h : ℚ) (base top : List Point2D)
    (hh : h ≠ 0) (hlen : base.length = top.length) :
    frustum_polygon_at_z z h base top =
      .ok (List.zipWith (fun pb pt => lerp_point pb pt (z / h)) base top) := by
  simp [frustum_polygon_at_z, hh, hlen]

lemma zipWith_lerp_zero (l1 l2 : List Point2D) (h : l1.length = l2.length) :
    List.zipWith (fun pb pt => lerp_point pb pt 0) l1 l2 = l1 := by
  induction l1 generalizing l2 with
  | nil => simp
  | cons a as ih =>
    cases l2 with
    | nil => simp at h
    | cons b bs =>
      have hab : lerp_point a b 0 = a := by
        simp [lerp_point, lerp_zero]
      simp [hab, ih bs (by simpa using h)]

lemma zipWith_lerp_one (l1 l2 : List Point2D) (h : l1.length = l2.length) :
    List.zipWith (fun pb pt => lerp_point pb pt 1) l1 l2 = l2 := by
  induction l1 generalizing l2 with
  | nil =>
    cases l2 with
    | nil => simp
    | cons b bs => simp at h
  | cons a as ih =>
    cases l2 with
    | nil => simp at h
    | cons b bs =>
      have hab : lerp_point a b 1 = b := by
        simp [lerp_point, lerp_one]
      simp [hab, ih bs (by simpa using h)]

lemma centroid_rect (L W : ℚ) : centroid (rect_centered L W) = (0, 0) := by
  simp only [centroid, rect_centered, List.map_cons, List.map_nil, List.sum_cons,
    List.sum_nil, List.length_cons, List.length_nil]
  norm_num

/-! ## Claim theorems -/

/-- C4: for every base/top pair with equal vertex counts and every nonzero
height h, `profileAt(0, base, top, h)` equals `base` exactly and
`profileAt(h, base, top, h)` equals `top` exactly — no accumulated drift. -/
theorem profileAt_endpoints (base top : List Point2D) (h : ℚ)
    (hh : h ≠ 0) (hlen : base.length = top.length) :
    frustum_polygon_at_z 0 h base top = .ok base ∧
    frustum_polygon_at_z h h base top = .ok top := by
  constructor
  · rw [frustum_ok 0 h base top hh hlen]
    simp only [zero_div]
    rw [zipWith_lerp_zero base top hlen]
  · rw [frustum_ok h h base top hh hlen]
    rw [div_self hh]
    rw [zipWith_lerp_one base top hlen]

/-- Witness for C4 at base [(0,0)], top [(3,4)], height 1. -/
theorem profileAt_endpoints_witness :
    frustum_polygon_at_z 0 1 [((0 : ℚ), (0 : ℚ))] [((3 : ℚ), (4 : ℚ))] =
      .ok [((0 : ℚ), (0 : ℚ))] ∧
    frustum_polygon_at_z 1 1 [((0 : ℚ), (0 : ℚ))] [((3 : ℚ), (4 : ℚ))] =
      .ok [((3 : ℚ), (4 : ℚ))] :=
  profileAt_endpoints [((0 : ℚ), (0 : ℚ))] [((3 : ℚ), (4 : ℚ))] 1 (by norm_num) rfl

/-- C5: `profileAt` raises the `DomainError` when height = 0, the
`ConfigError` when the vertex counts differ, and otherwise returns, for each
corresponding vertex pair (pb, pt), exactly pb + (pt − pb)·(z/height). -/
theorem profileAt_cases (z h : ℚ) (base top : List Point2D) :
    (h = 0 → frustum_polygon_at_z z h base top = .error DomainError) ∧
    (h ≠ 0 → base.length ≠ top.length →
      frustum_polygon_at_z z h base top = .error ConfigError) ∧
    (h ≠ 0 → base.length = top.length →
      frustum_polygon_at_z z h base top =
        .ok (List.zipWith (fun pb pt =>
          (pb.1 + (pt.1 - pb.1) * (z / h), pb.2 + (pt.2 - pb.2) * (z / h)))
          base top)) := by
  refine ⟨fun h0 => by simp [frustum_polygon_at_z, h0],
    fun hh hne => by simp [frustum_polygon_at_z, hh, hne],
    fun hh heq => ?_⟩
  simp [frustum_polygon_at_z, hh, heq, lerp_point, lerp]

/-- Witness for C5 at z = 1, height = 2, base [(0,0)], top [(4,8)]. -/
theorem profileAt_cases_witness :
    frustum_polygon_at_z 1 2 [((0 : ℚ), (0 : ℚ))] [((4 : ℚ), (8 : ℚ))] =
      .ok [((2 : ℚ), (4 : ℚ))] := by
  have hc := (profileAt_cases 1 2 [((0 : ℚ), (0 : ℚ))] [((4 : ℚ), (8 : ℚ))]).2.2
    (by norm_num) rfl
  rw [hc]
  norm_num

/-- C7: the symmetric screw-hole pair is placed at (+spacing/2, 0) and
(−spacing/2, 0), mirror-symmetric about the centerline; for SG90 screw
spacing 27.0 the holes lie exactly at (13.5, 0) and (−13.5, 0). -/
theorem screw_holes_symmetric :
    (∀ s : ServoSpec,
      screw_hole_locations s =
        [(s.screw_spacing_x / 2, 0), (-(s.screw_spacing_x / 2), 0)] ∧
      List.map mirrorX (screw_hole_locations s) = (screw_hole_locations s).reverse) ∧
    screw_hole_locations SG90_SPEC = [((13.5 : ℚ), 0), ((-13.5 : ℚ), 0)] := by
  refine ⟨fun s => ⟨rfl, ?_⟩, ?_⟩
  · simp [screw_hole_locations, mirrorX]
  · norm_num [screw_hole_locations, SG90_SPEC]

/-- C8 counterexample: the SG90 catalog constant violates the claimed
invariant — its screw spacing along X (27.0) is not strictly less than its
body length (23.5); it strictly exceeds it. -/
theorem catalog_invariant_counterexample :
    ¬ (SG90_SPEC.screw_spacing_x < SG90_SPEC.body_length) ∧
    SG90_SPEC.body_length < SG90_SPEC.screw_spacing_x := by
  norm_num [SG90_SPEC]

/-- C8 amended: every dimension of both catalog constants is strictly
positive; every HC-SR04 hole/window spacing is strictly less than the
corresponding board dimension; the SG90 screw spacing exceeds the bare body
length but is strictly less than the flange span
(body length + 2·flange overhang). -/
theorem catalog_invariant_amended :
    (0 < SG90_SPEC.body_width ∧ 0 < SG90_SPEC.body_length ∧
     0 < SG90_SPEC.body_height ∧ 0 < SG90_SPEC.flange_thickness ∧
     0 < SG90_SPEC.flange_overhang ∧ 0 < SG90_SPEC.screw_spacing_x ∧
     0 < SG90_SPEC.screw_diameter) ∧
    (0 < HCSR04_PCB_SPEC.board_width ∧ 0 < HCSR04_PCB_SPEC.board_height ∧
     0 < HCSR04_PCB_SPEC.board_thickness ∧
     0 < HCSR04_PCB_SPEC.mount_hole_spacing_x ∧
     0 < HCSR04_PCB_SPEC.mount_hole_spacing_y ∧
     0 < HCSR04_PCB_SPEC.mount_hole_diameter ∧
     0 < HCSR04_PCB_SPEC.windows_separation ∧
     0 < HCSR04_PCB_SPEC.window_diameter) ∧
    HCSR04_PCB_SPEC.mount_hole_spacing_x < HCSR04_PCB_SPEC.board_width ∧
    HCSR04_PCB_SPEC.mount_hole_spacing_y < HCSR04_PCB_SPEC.board_height ∧
    HCSR04_PCB_SPEC.windows_separation < HCSR04_PCB_SPEC.board_width ∧
    SG90_SPEC.screw_spacing_x <
      SG90_SPEC.body_length + 2 * SG90_SPEC.flange_overhang := by
  norm_num [SG90_SPEC, HCSR04_PCB_SPEC]

/-- C10: the module-level `lerp(a, b, t) = a + (b − a)·t` and the frustum
mount's `_lerp`, which computes bottom − (bottom − top)·(z/height), agree at
corresponding arguments t = z/height: the duplicated interpolation paths are
equivalent. -/
theorem frustum_lerp_eq_lerp (m : ServoFrustumMount) (bottom t z : ℚ) :
    m._lerp bottom t z = lerp bottom t (z / m.height) := by
  simp only [ServoFrustumMount._lerp, lerp]
  ring

/-- C1: for every rectangle profile and positive wall thickness t,
`innerOffset` returns a profile strictly contained in the input whenever
every shrunken half-dimension stays > 0, and fails with `FeasibilityError`
when some half-dimension would become ≤ 0; an `ok` result is never a
degenerate or negative-area rectangle. -/
theorem innerOffset_spec (r : Rect) (t : ℚ) (ht : 0 < t) :
    (0 < r.length / 2 - t ∧ 0 < r.width / 2 - t →
      ∃ r' : Rect, innerOffset r t = .ok r' ∧
        r'.strictlyInside r ∧ 0 < r'.area) ∧
    (r.length / 2 - t ≤ 0 ∨ r.width / 2 - t ≤ 0 →
      innerOffset r t =
        .error (.feasibilityError "inner profile degenerates or inverts")) := by
  constructor
  · intro hcond
    refine ⟨⟨r.length - 2 * t, r.width - 2 * t⟩, ?_, ⟨?_, ?_⟩, ?_⟩
    · simp [innerOffset, hcond]
    · simp only
      linarith [ht]
    · simp only
      linarith [ht]
    · have h1 : 0 < r.length - 2 * t := by linarith [hcond.1]
      have h2 : 0 < r.width - 2 * t := by linarith [hcond.2]
      simpa [Rect.area] using mul_pos h1 h2
  · intro hcond
    have hnot : ¬ (0 < r.length / 2 - t ∧ 0 < r.width / 2 - t) := by
      rcases hcond with h | h
      · exact fun hc => absurd hc.1 (not_lt.mpr h)
      · exact fun hc => absurd hc.2 (not_lt.mpr h)
    simp only [innerOffset]
    rw [if_neg hnot]

/-- Witness for C1 at rectangle 10×8, wall thickness 2. -/
theorem innerOffset_spec_witness :
    innerOffset ⟨10, 8⟩ 2 = .ok ⟨6, 4⟩ ∧
    Rect.strictlyInside ⟨6, 4⟩ ⟨10, 8⟩ ∧
    (0 : ℚ) < Rect.area ⟨6, 4⟩ := by
  obtain ⟨r', h1, h2, h3⟩ := (innerOffset_spec ⟨10, 8⟩ 2 (by norm_num)).1 (by norm_num)
  have hval : innerOffset ⟨10, 8⟩ 2 = .ok ⟨6, 4⟩ := by
    norm_num [innerOffset]
  rw [hval] at h1
  have hr : r' = (⟨6, 4⟩ : Rect) := by
    cases h1
    rfl
  rw [hr] at h2 h3
  exact ⟨hval, h2, h3⟩

/-- C2 counterexample: with wall thickness 100 against the default 42×32
base, the build's pre-kernel validation fails with the bare base-length
assertion, not a `FeasibilityError` carrying a violation list. -/
theorem wall100_counterexample :
    ServoFrustumMount.buildChecks wall100Mount =
      .error ServoFrustumMount.BuildError.assertBaseLength ∧
    ServoFrustumMount.BuildError.isFeasibility
      ServoFrustumMount.BuildError.assertBaseLength = false := by
  constructor
  · have hlt : ¬ (wall100Mount.base_length ≥ wall100Mount.top_len) := by
      norm_num [wall100Mount, ServoFrustumMount.top_len, SG90_SPEC]
    simp [ServoFrustumMount.buildChecks, hlt]
  · rfl

/-- C2 amended: with wall thickness 100 against the 42×32 base, the required
top length is 227.5 > 42, so the build fails before any kernel operation with
the base-length `AssertionError` (fail-fast), never reaching a kernel call. -/
theorem wall100_amended :
    ServoFrustumMount.top_len wall100Mount = 227.5 ∧
    wall100Mount.base_length < ServoFrustumMount.top_len wall100Mount ∧
    ServoFrustumMount.buildChecks wall100Mount =
      .error ServoFrustumMount.BuildError.assertBaseLength ∧
    ServoFrustumMount.reachesKernel wall100Mount = false := by
  have htop : ServoFrustumMount.top_len wall100Mount = 227.5 := by
    norm_num [wall100Mount, ServoFrustumMount.top_len, SG90_SPEC]
  have hlt : ¬ (wall100Mount.base_length ≥ wall100Mount.top_len) := by
    rw [ge_iff_le, htop]
    norm_num [wall100Mount]
  have hchk : ServoFrustumMount.buildChecks wall100Mount =
      .error ServoFrustumMount.BuildError.assertBaseLength := by
    simp [ServoFrustumMount.buildChecks, hlt]
  refine ⟨htop, ?_, hchk, ?_⟩
  · rw [htop]
    norm_num [wall100Mount]
  · simp [ServoFrustumMount.reachesKernel, hchk, Except.toBool]

/-- C3 counterexample: at wall thickness 100 both base-footprint constraints
are violated (the spec-modelled batch validator reports two violations in
order), yet the code's pre-kernel validation raises on the first violated
assertion, returning a bare assertion error and no violation list. -/
theorem validator_counterexample :
    ServoFrustumMount.specValidator wall100Mount =
      ["base length smaller than top length", "base width smaller than top width"] ∧
    ServoFrustumMount.buildChecks wall100Mount =
      .error ServoFrustumMount.BuildError.assertBaseLength ∧
    ServoFrustumMount.BuildError.isFeasibility
      ServoFrustumMount.BuildError.assertBaseLength = false := by
  have h1 : ¬ (wall100Mount.base_length ≥ wall100Mount.top_len) := by
    norm_num [wall100Mount, ServoFrustumMount.top_len, SG90_SPEC]
  have h2 : ¬ (wall100Mount.base_width ≥ wall100Mount.top_wid) := by
    norm_num [wall100Mount, ServoFrustumMount.top_wid, SG90_SPEC]
  refine ⟨?_, ?_, rfl⟩
  · simp [ServoFrustumMount.specValidator, h1, h2]
  · simp [ServoFrustumMount.buildChecks, h1]

/-- C3 amended: the pre-kernel validation of the frustum build consists of
two ordered assertions checked before any kernel call; it passes exactly when
the (spec-modelled) rule set has no violation, but on a violated rule it
raises the first failed assertion immediately — it never returns an
accumulated violation list. -/
theorem buildChecks_fail_fast (m : ServoFrustumMount) :
    ((ServoFrustumMount.buildChecks m).toBool = true ↔
      ServoFrustumMount.specValidator m = []) ∧
    (¬ m.base_length ≥ m.top_len →
      ServoFrustumMount.buildChecks m =
        .error ServoFrustumMount.BuildError.assertBaseLength) ∧
    (m.base_length ≥ m.top_len → ¬ m.base_width ≥ m.top_wid →
      ServoFrustumMount.buildChecks m =
        .error ServoFrustumMount.BuildError.assertBaseWidth) ∧
    (∀ e, ServoFrustumMount.buildChecks m = .error e →
      ServoFrustumMount.BuildError.isFeasibility e = false) := by
  refine ⟨?_, ?_, ?_, ?_⟩
  · by_cases h1 : m.base_length ≥ m.top_len <;>
      by_cases h2 : m.base_width ≥ m.top_wid <;>
        simp [ServoFrustumMount.buildChecks, ServoFrustumMount.specValidator,
          h1, h2, Except.toBool]
  · intro h1
    simp [ServoFrustumMount.buildChecks, h1]
  · intro h1 h2
    simp [ServoFrustumMount.buildChecks, h1, h2]
  · intro e he
    by_cases h1 : m.base_length ≥ m.top_len <;>
      by_cases h2 : m.base_width ≥ m.top_wid <;>
        simp [ServoFrustumMount.buildChecks, h1, h2] at he
    all_goals subst he
    all_goals rfl

/-- Witness for C3's amended theorem at the wall-thickness-100 mount. -/
theorem buildChecks_fail_fast_witness :
    ServoFrustumMount.buildChecks wall100Mount =
      .error ServoFrustumMount.BuildError.assertBaseLength :=
  (buildChecks_fail_fast wall100Mount).2.1
    (by norm_num [wall100Mount, ServoFrustumMount.top_len, SG90_SPEC])

/-- C6 counterexample: with margins set to 0 the plate length equals the body
length exactly, so the plate does not strictly exceed the body for every
margin value. -/
theorem basePlateProfile_counterexample :
    ServoMountPlate.plate_length { margin_x := 0, margin_y := 0 } =
      SG90_SPEC.body_length ∧
    ¬ (SG90_SPEC.body_length <
        ServoMountPlate.plate_length { margin_x := 0, margin_y := 0 }) := by
  norm_num [ServoMountPlate.plate_length, SG90_SPEC]

/-- C6 amended: `basePlateProfile` is the rectangle of size
(bodyLength + 2·marginX, bodyWidth + 2·marginY) centered at the origin; its
length and width strictly exceed the body's whenever the margins are
positive (as the defaults are); with the default body length 23.5 and
margin_x 4.0 the plate length is exactly 31.5. -/
theorem basePlateProfile_amended (m : ServoMountPlate) :
    m.plate_length = m.spec.body_length + 2 * m.margin_x ∧
    m.plate_width = m.spec.body_width + 2 * m.margin_y ∧
    m.basePlateProfile =
      rect_centered (m.spec.body_length + 2 * m.margin_x)
        (m.spec.body_width + 2 * m.margin_y) ∧
    centroid m.basePlateProfile = (0, 0) ∧
    (0 < m.margin_x → m.spec.body_length < m.plate_length) ∧
    (0 < m.margin_y → m.spec.body_width < m.plate_width) ∧
    ServoMountPlate.plate_length {} = 31.5 := by
  have hl : m.plate_length = m.spec.body_length + 2 * m.margin_x := by
    simp only [ServoMountPlate.plate_length]
    ring
  have hw : m.plate_width = m.spec.body_width + 2 * m.margin_y := by
    simp only [ServoMountPlate.plate_width]
    ring
  refine ⟨hl, hw, ?_, ?_, ?_, ?_, ?_⟩
  · simp only [ServoMountPlate.basePlateProfile]
    rw [hl, hw]
  · exact centroid_rect m.plate_length m.plate_width
  · intro hx
    simp only [ServoMountPlate.plate_length]
    linarith
  · intro hy
    simp only [ServoMountPlate.plate_width]
    linarith
  · norm_num [ServoMountPlate.plate_length, SG90_SPEC]

/-- Witness for C6's amended theorem at the default plate configuration. -/
theorem basePlateProfile_amended_witness :
    ServoMountPlate.plate_length {} = 31.5 ∧
    SG90_SPEC.body_length < ServoMountPlate.plate_length {} := by
  have h := basePlateProfile_amended {}
  exact ⟨h.2.2.2.2.2.2, h.2.2.2.2.1 (by norm_num)⟩

/-- C9: for every valid base/top pair and nonzero height, each coordinate of
each vertex of `profileAt(z, …)` moves monotonically in z between its value
at z = 0 (the base vertex) and its value at z = height (the top vertex),
staying between those endpoint values. -/
theorem profileAt_monotone (base top : List Point2D) (h z₁ z₂ : ℚ)
    (hh : h ≠ 0) (hlen : base.length = top.length)
    (h0 : 0 ≤ z₁ / h) (h12 : z₁ / h ≤ z₂ / h) (h1 : z₂ / h ≤ 1) :
    ∃ l₁ l₂, frustum_polygon_at_z z₁ h base top = .ok l₁ ∧
      frustum_polygon_at_z z₂ h base top = .ok l₂ ∧
      l₁.length = base.length ∧ l₂.length = base.length ∧
      ∀ (i : ℕ) (hib : i < base.length) (hit : i < top.length)
        (hi₁ : i < l₁.length) (hi₂ : i < l₂.length),
        monoStep (base.get ⟨i, hib⟩).1 (top.get ⟨i, hit⟩).1
          (l₁.get ⟨i, hi₁⟩).1 (l₂.get ⟨i, hi₂⟩).1 ∧
        monoStep (base.get ⟨i, hib⟩).2 (top.get ⟨i, hit⟩).2
          (l₁.get ⟨i, hi₁⟩).2 (l₂.get ⟨i, hi₂⟩).2 := by
  refine ⟨_, _, frustum_ok z₁ h base top hh hlen, frustum_ok z₂ h base top hh hlen,
    ?_, ?_, ?_⟩
  · simp [List.length_zipWith]
    omega
  · simp [List.length_zipWith]
    omega
  · intro i hib hit hi₁ hi₂
    constructor
    · simp only [List.get_eq_getElem, List.getElem_zipWith]
      exact lerp_monoStep _ _ _ _ h0 h12 h1
    · simp only [List.get_eq_getElem, List.getElem_zipWith]
      exact lerp_monoStep _ _ _ _ h0 h12 h1

/-- Witness for C9 at base [(0,0)], top [(4,4)], height 2, z₁ = 1, z₂ = 2. -/
theorem profileAt_monotone_witness :
    frustum_polygon_at_z 1 2 [((0 : ℚ), (0 : ℚ))] [((4 : ℚ), (4 : ℚ))] =
      .ok [((2 : ℚ), (2 : ℚ))] ∧
    monoStep (0 : ℚ) 4 2 4 := by
  obtain ⟨l₁, l₂, e₁, e₂, len₁, len₂, hmono⟩ :=
    profileAt_monotone [((0 : ℚ), (0 : ℚ))] [((4 : ℚ), (4 : ℚ))] 2 1 2
      (by norm_num) rfl (by norm_num) (by norm_num) (by norm_num)
  have hv₁ : frustum_polygon_at_z 1 2 [((0 : ℚ), (0 : ℚ))] [((4 : ℚ), (4 : ℚ))] =
      .ok [((2 : ℚ), (2 : ℚ))] := by
    norm_num [frustum_polygon_at_z, lerp_point, lerp]
  have hv₂ : frustum_polygon_at_z 2 2 [((0 : ℚ), (0 : ℚ))] [((4 : ℚ), (4 : ℚ))] =
      .ok [((4 : ℚ), (4 : ℚ))] := by
    norm_num [frustum_polygon_at_z, lerp_point, lerp]
  rw [hv₁] at e₁
  rw [hv₂] at e₂
  injection e₁ with e₁'
  injection e₂ with e₂'
  subst e₁'
  subst e₂'
  exact ⟨hv₁, (hmono 0 (by simp) (by simp) (by simp) (by simp)).1⟩

end Robocad
